import Mathlib

/-!
Verification of the csctl release-orchestration core: content fingerprints
(pkg/hash/hash.go), version bumping and mode resolution
(pkg/clusterstack/mode.go), release naming (pkg/clusterstack/config.go),
and the create/publish change gates (pkg/cmd/create.go, publish command).
Go strings are modelled as Lean `String` (the digests involved are ASCII, so
byte length and character length coincide); fallible Go functions returning
`(T, error)` are modelled as `Except String T`; the filesystem reads of
`GetHash` are modelled by passing the directory listing and the per-entry
hashing outcomes explicitly.
-/

/-- ReleaseHash from pkg/hash/hash.go: the four fingerprint components.
Go zero values are the empty string. -/
structure ReleaseHash where
  clusterStack : String := ""
  clusterAddonDir : String := ""
  clusterAddonValues : String := ""
  nodeImageDir : String := ""
deriving DecidableEq, Repr

/-- The constant clusterAddonDirName of pkg/hash/hash.go. -/
def clusterAddonDirName : String := "cluster-addon"

/-- The constant nodeImageDirName of pkg/hash/hash.go. -/
def nodeImageDirName : String := "node-image"

/-- The constant clusterAddonValuesFileName of pkg/hash/hash.go. -/
def clusterAddonValuesFileName : String := "cluster-addon-values.yaml"

/-- clean from pkg/hash/hash.go: strip a leading "h1:", drop every slash,
equals sign and plus sign, and lowercase the rest. -/
def clean (h : String) : String :=
  let l : List Char :=
    match h.data with
    | 'h' :: '1' :: ':' :: rest => rest
    | other => other
  String.mk ((l.filter (fun c => !(c == '/') && !(c == '=') && !(c == '+'))).map Char.toLower)

/-- One entry of the cluster stack root directory as os.ReadDir lists it for
GetHash in pkg/hash/hash.go: its name, whether it is a directory, and the
outcome of hashing it (dirhash.HashDir for a directory, the sha256 digest,
already base64 encoded, for the values file). The hashing outcome is passed
in explicitly because it is filesystem input to the function. -/
structure DirEntry where
  name : String
  isDir : Bool
  hashResult : Except String String
deriving Repr

/-- The filesystem input consumed by GetHash in pkg/hash/hash.go: the result
of os.ReadDir on the root path and the result of dirhash.HashDir over the
whole tree. -/
structure RootDir where
  readDirResult : Except String (List DirEntry)
  wholeTreeHash : Except String String

/-- An entry the GetHash loop in pkg/hash/hash.go reacts to: a directory
named cluster-addon or node-image, or a regular file named
cluster-addon-values.yaml. -/
def DirEntry.relevant (e : DirEntry) : Prop :=
  (e.isDir = true ∧ (e.name = clusterAddonDirName ∨ e.name = nodeImageDirName)) ∨
  (e.isDir = false ∧ e.name = clusterAddonValuesFileName)

instance (e : DirEntry) : Decidable e.relevant := by
  unfold DirEntry.relevant
  infer_instance

/-- The entry loop of GetHash in pkg/hash/hash.go lines 64 to 88: fill the
clusterAddonDir, nodeImageDir and clusterAddonValues components from the
entries that are present, returning the first hashing error. -/
def processEntries : List DirEntry → ReleaseHash → Except String ReleaseHash
  | [], rh => Except.ok rh
  | e :: rest, rh =>
    if e.isDir = true ∧ (e.name = clusterAddonDirName ∨ e.name = nodeImageDirName) then
      match e.hashResult with
      | Except.error err => Except.error ("failed to hash dir: " ++ err)
      | Except.ok h =>
        if e.name = clusterAddonDirName then
          processEntries rest { rh with clusterAddonDir := clean h }
        else
          processEntries rest { rh with nodeImageDir := clean h }
    else if e.isDir = false ∧ e.name = clusterAddonValuesFileName then
      match e.hashResult with
      | Except.error err => Except.error ("failed to copy dir: " ++ err)
      | Except.ok h => processEntries rest { rh with clusterAddonValues := clean h }
    else
      processEntries rest rh

/-- GetHash from pkg/hash/hash.go lines 47 to 91: fail if the root is
unreadable, record the cleaned whole tree hash, then process the entries. -/
def GetHash (root : RootDir) : Except String ReleaseHash :=
  match root.readDirResult with
  | Except.error e => Except.error ("failed to read dir: " ++ e)
  | Except.ok entries =>
    match root.wholeTreeHash with
    | Except.error e => Except.error ("failed to calculate cluster stack hash: " ++ e)
    | Except.ok h =>
      processEntries entries
        { clusterStack := clean h, clusterAddonDir := "", clusterAddonValues := "", nodeImageDir := "" }

/-- ValidateWithLatestReleaseHash from pkg/hash/hash.go lines 94 to 102:
error exactly when the three component digests all agree; the whole tree
clusterStack digest is not consulted. -/
def ReleaseHash.ValidateWithLatestReleaseHash (r latestReleaseHash : ReleaseHash) : Except String Unit :=
  if r.clusterAddonDir = latestReleaseHash.clusterAddonDir ∧
     r.clusterAddonValues = latestReleaseHash.clusterAddonValues ∧
     r.nodeImageDir = latestReleaseHash.nodeImageDir then
    Except.error "no change in the cluster stack"
  else
    Except.ok ()

/-- GetClusterStackHash from pkg/hash/hash.go lines 114 to 117. The Go body
is the slice expression ClusterStack[:7], which panics when the string is
shorter than seven bytes; `none` models that panic. -/
def ReleaseHash.GetClusterStackHash (r : ReleaseHash) : Option String :=
  if 7 ≤ r.clusterStack.length then
    some (String.mk (r.clusterStack.data.take 7))
  else
    none

/-- The guarded annotation assignment of generateRelease in
pkg/cmd/create.go lines 363 to 366: the seven character prefix is taken only
behind an explicit length check, otherwise the annotation stays empty. -/
def ociHashAnnot (cur : ReleaseHash) : String :=
  if 7 ≤ cur.clusterStack.length then String.mk (cur.clusterStack.data.take 7) else ""

/-- Component from pkg/clusterstack/mode.go (config section): the two
component versions of a release. -/
structure Component where
  clusterAddon : String := ""
  nodeImage : String := ""
deriving DecidableEq, Repr

/-- Versions from pkg/clusterstack/mode.go (config section). -/
structure Versions where
  clusterStack : String := ""
  kubernetes : String := ""
  components : Component := {}
deriving DecidableEq, Repr

/-- MetaData from pkg/clusterstack/mode.go (config section). -/
structure MetaData where
  apiVersion : String := ""
  versions : Versions := {}
deriving DecidableEq, Repr

/-- The value of a list of decimal digit characters, as strconv.Atoi reads
it (the digit runs fed to it here are unsigned and within range). -/
def digitsToNat (l : List Char) : Nat :=
  l.foldl (fun n c => 10 * n + (c.toNat - '0'.toNat)) 0

/-- The submatch computed by FindStringSubmatch with the pattern of one
parenthesised digit run in BumpVersion, pkg/clusterstack/mode.go: the first
maximal run of decimal digits of the string, or none. -/
def firstDigitRun : List Char → Option (List Char)
  | [] => none
  | c :: cs => if c.isDigit then some (c :: cs.takeWhile Char.isDigit) else firstDigitRun cs

/-- One step of ReplaceAllString for the digit-run pattern: the Bool records
whether the previous character was a digit, so that each maximal digit run
is replaced exactly once. -/
def replaceRunsAux (repl : List Char) : Bool → List Char → List Char
  | _, [] => []
  | inRun, c :: cs =>
    if c.isDigit then
      if inRun then replaceRunsAux repl true cs
      else repl ++ replaceRunsAux repl true cs
    else c :: replaceRunsAux repl false cs

/-- ReplaceAllString of BumpVersion, pkg/clusterstack/mode.go: every maximal
run of decimal digits of the string is replaced by `repl`. -/
def replaceRuns (repl l : List Char) : List Char :=
  replaceRunsAux repl false l

/-- strconv.Atoi applied to the matched digit run in BumpVersion,
pkg/clusterstack/mode.go line 193: Go parses into the 64 bit signed int
type and returns a range error when the value exceeds 2 to the 63 minus
one; the run handed over here is nonempty and all digits, so the syntax
error branch of Atoi cannot trigger. -/
def atoiDigitRun (l : List Char) : Except String Nat :=
  if 2 ^ 63 - 1 < digitsToNat l then Except.error "value out of range"
  else Except.ok (digitsToNat l)

/-- Go addition on the 64 bit int wraps modulo 2 to the 64 into the signed
range, values of 2 to the 63 and above standing for negatives. -/
def wrapInt64 (n : Nat) : Int :=
  if n % 2 ^ 64 < 2 ^ 63 then ((n % 2 ^ 64 : Nat) : Int)
  else ((n % 2 ^ 64 : Nat) : Int) - 2 ^ 64

/-- strconv.Itoa on a 64 bit int value, as BumpVersion renders the
incremented major version. -/
def itoa (n : Int) : List Char :=
  if n < 0 then '-' :: (Nat.repr (-n).toNat).data else (Nat.repr n.toNat).data

/-- BumpVersion from pkg/clusterstack/mode.go lines 182 to 205: find the
first digit run, parse it with strconv.Atoi (wrapping a range failure as
the parse error of line 195), add one to its value with the wrapping int
addition, and substitute the new decimal for every digit run of the string
via ReplaceAllString. -/
def BumpVersion (version : String) : Except String String :=
  match firstDigitRun version.data with
  | none => Except.error "invalid version format"
  | some run =>
    match atoiDigitRun run with
    | Except.error e => Except.error ("failed to parse major version: " ++ e)
    | Except.ok currentMajor =>
      let newMajor := wrapInt64 (currentMajor + 1)
      Except.ok (String.mk (replaceRuns (itoa newMajor) version.data))

/-- The cluster addon branch of HandleStableMode, pkg/clusterstack/mode.go
lines 39 to 47: bump only when the addon directory digests or the addon
values digests differ, else keep the version. -/
def bumpAddonIfChanged (v : String) (cur latest : ReleaseHash) : Except String String :=
  if cur.clusterAddonDir ≠ latest.clusterAddonDir ∨ cur.clusterAddonValues ≠ latest.clusterAddonValues then
    match BumpVersion v with
    | Except.error e => Except.error ("failed to bump cluster addon: " ++ e)
    | Except.ok w => Except.ok w
  else
    Except.ok v

/-- The node image branch of HandleStableMode, pkg/clusterstack/mode.go
lines 49 to 61: bump only when the node image directory digests differ,
else keep the version. -/
def bumpNodeImageIfChanged (v : String) (cur latest : ReleaseHash) : Except String String :=
  if cur.nodeImageDir ≠ latest.nodeImageDir then
    match BumpVersion v with
    | Except.error e => Except.error ("failed to bump node image: " ++ e)
    | Except.ok w => Except.ok w
  else
    Except.ok v

/-- HandleStableMode from pkg/clusterstack/mode.go lines 27 to 64, taking
the already parsed latest release metadata (ParseMetaData reads it from the
downloaded release directory): always bump the cluster stack version, bump
the addon and node image versions only on a digest change. -/
def HandleStableMode (metadata : MetaData) (currentReleaseHash latestReleaseHash : ReleaseHash) :
    Except String MetaData :=
  match BumpVersion metadata.versions.clusterStack with
  | Except.error e => Except.error ("failed to bump cluster stack: " ++ e)
  | Except.ok cs =>
    match bumpAddonIfChanged metadata.versions.components.clusterAddon currentReleaseHash latestReleaseHash with
    | Except.error e => Except.error e
    | Except.ok ca =>
      match bumpNodeImageIfChanged metadata.versions.components.nodeImage currentReleaseHash latestReleaseHash with
      | Except.error e => Except.error e
      | Except.ok ni =>
        Except.ok { metadata with
          versions := { metadata.versions with
            clusterStack := cs,
            components := { clusterAddon := ca, nodeImage := ni } } }

/-- Modelled from the spec: the two-argument HandleHashMode invoked by
GetCreateOptions in pkg/cmd/create.go line 138 is not part of the source
tree (only its caller is; the mode.go in the tree holds an older
one-argument variant based on the git commit). Per the spec, hash mode
derives the version string v0-sha.PREFIX from the seven character prefix of
the whole tree digest of the current fingerprint, via GetClusterStackHash,
and assigns it to all three component versions; `none` models the panic of
GetClusterStackHash on a digest shorter than seven characters. -/
def HandleHashMode (currentReleaseHash : ReleaseHash) (kubernetesVersion : String) : Option MetaData :=
  match currentReleaseHash.GetClusterStackHash with
  | none => none
  | some h =>
    let v := "v0-sha." ++ h
    some
      { apiVersion := "metadata.clusterstack.x-k8s.io/v1alpha1"
        versions :=
          { clusterStack := v
            kubernetes := kubernetesVersion
            components := { clusterAddon := v, nodeImage := v } } }

/-- CsctlConfig from pkg/clusterstack/config.go, with the nested config
section flattened to the fields the naming and mode code reads. -/
structure CsctlConfig where
  apiVersion : String := ""
  kubernetesVersion : String := ""
  clusterStackName : String := ""
  providerType : String := ""
deriving DecidableEq, Repr

/-- strings.Split on the dot character, on the character list of the
kubernetes version string, as ParseKubernetesVersion uses it. -/
def splitOnDot : List Char → List (List Char)
  | [] => [[]]
  | c :: cs =>
    if c = '.' then [] :: splitOnDot cs
    else
      match splitOnDot cs with
      | [] => [[c]]
      | g :: gs => (c :: g) :: gs

/-- strings.TrimPrefix of a single leading v character, as
ParseKubernetesVersion applies it to the major component. -/
def trimV (l : List Char) : List Char :=
  match l with
  | c :: rest => if c = 'v' then rest else l
  | [] => l

/-- strconv.Atoi restricted to the nonnegative decimal numerals that a
validated kubernetes version or version numeral holds. -/
def atoiNat (l : List Char) : Except String Nat :=
  if !l.isEmpty && l.all Char.isDigit then Except.ok (digitsToNat l) else Except.error "invalid syntax"

/-- KubernetesVersion of the external kubernetesversion package as
ParseKubernetesVersion in pkg/clusterstack/config.go fills it: the major and
minor numbers of the configured kubernetes version. -/
structure KubernetesVersion where
  major : Nat
  minor : Nat
deriving DecidableEq, Repr

/-- Modelled from the spec: the String method of the external
KubernetesVersion type, rendering major and minor joined by a dash as the
release directory example docker-ferrol-1-27-v1 shows. -/
def KubernetesVersion.render (v : KubernetesVersion) : String :=
  Nat.repr v.major ++ "-" ++ Nat.repr v.minor

/-- ParseKubernetesVersion from pkg/clusterstack/config.go lines 93 to 114:
split on dots, expect exactly three parts, trim the leading v from the first
and read major and minor. -/
def CsctlConfig.ParseKubernetesVersion (c : CsctlConfig) : Except String KubernetesVersion :=
  match splitOnDot c.kubernetesVersion.data with
  | [a, b, _p] =>
    match atoiNat (trimV a), atoiNat b with
    | Except.ok major, Except.ok minor => Except.ok { major := major, minor := minor }
    | Except.error _, _ => Except.error "invalid major version"
    | _, Except.error _ => Except.error "invalid minor version"
  | _ => Except.error "invalid format"

/-- Version of the external cluster-stack-operator version package, as far
as the naming code uses it: the leading number of the version string and its
optional dash suffix. -/
structure CsVersion where
  major : Nat
  suffix : Option (List Char)
deriving DecidableEq, Repr

/-- Modelled from the spec: version.New of the external cluster-stack-operator
dependency, parsing the grammar v DIGITS, optionally followed by a dash and a
nonempty suffix; only canonical numerals are accepted, so rendering the
parsed value reproduces the input exactly. -/
def versionNew (s : String) : Except String CsVersion :=
  match s.data with
  | [] => Except.error "invalid version"
  | c :: rest =>
    if c = 'v' then
      let ds := rest.takeWhile Char.isDigit
      let tl := rest.dropWhile Char.isDigit
      if ds.isEmpty then Except.error "invalid version"
      else if (Nat.repr (digitsToNat ds)).data = ds then
        match tl with
        | [] => Except.ok { major := digitsToNat ds, suffix := none }
        | t :: suf =>
          if t = '-' then
            if suf.isEmpty then Except.error "invalid version"
            else Except.ok { major := digitsToNat ds, suffix := some suf }
          else Except.error "invalid version"
      else Except.error "invalid version"
    else Except.error "invalid version"

/-- Modelled from the spec: the String method of the external Version type,
rendering v, the number, and the dash suffix when present. -/
def CsVersion.render (v : CsVersion) : String :=
  String.mk ('v' :: (Nat.repr v.major).data ++
    (match v.suffix with
     | none => []
     | some suf => '-' :: suf))

/-- GetClusterStackReleaseDirectoryName from pkg/clusterstack/config.go
lines 116 to 133: parse the cluster stack version and the kubernetes
version, then join provider type, stack name, kubernetes major-minor and the
cluster stack version with dashes. -/
def GetClusterStackReleaseDirectoryName (metadata : MetaData) (config : CsctlConfig) :
    Except String String :=
  match versionNew metadata.versions.clusterStack with
  | Except.error e => Except.error ("failed to parse cluster stack version: " ++ e)
  | Except.ok clusterStackVersion =>
    match config.ParseKubernetesVersion with
    | Except.error e => Except.error ("failed to parse kubernetes version: " ++ e)
    | Except.ok kubernetesVerion =>
      Except.ok (config.providerType ++ "-" ++ config.clusterStackName ++ "-" ++
        kubernetesVerion.render ++ "-" ++ clusterStackVersion.render)

/-- CreateOptions from pkg/cmd/create.go lines 70 to 80. -/
structure CreateOptions where
  newClusterStackConvention : Bool := false
  ClusterStackPath : String := ""
  ClusterStackReleaseDir : String := ""
  Config : CsctlConfig := {}
  Metadata : MetaData := {}
  CurrentReleaseHash : ReleaseHash := {}
  LatestReleaseHash : ReleaseHash := {}
  NodeImageRegistry : String := ""
  releaseName : String := ""

/-- validateHash of CreateOptions from pkg/cmd/create.go lines 252 to 261:
error exactly when the addon directory, addon values and node image digests
of the current and latest release hashes all agree. -/
def CreateOptions.validateHash (c : CreateOptions) : Except String Unit :=
  if c.CurrentReleaseHash.clusterAddonDir = c.LatestReleaseHash.clusterAddonDir ∧
     c.CurrentReleaseHash.clusterAddonValues = c.LatestReleaseHash.clusterAddonValues ∧
     c.CurrentReleaseHash.nodeImageDir = c.LatestReleaseHash.nodeImageDir then
    Except.error "no change in the cluster stack"
  else
    Except.ok ()

/-- The stable mode branch of GetCreateOptions, pkg/cmd/create.go lines 139
to 186, once the remote lookup has produced the latest release tag and, when
one exists, its downloaded hashes and parsed metadata: an empty tag seeds a
fixed first release metadata, otherwise HandleStableMode runs and the
kubernetes version is restamped from the configuration. -/
def GetCreateOptionsStableMetadata (kubernetesVersion latestRepoRelease : String)
    (latestMetadata : MetaData) (currentReleaseHash latestReleaseHash : ReleaseHash) :
    Except String MetaData :=
  if latestRepoRelease = "" then
    Except.ok
      { apiVersion := "metadata.clusterstack.x-k8s.io/v1alpha1"
        versions :=
          { clusterStack := "v1"
            kubernetes := kubernetesVersion
            components := { clusterAddon := "v1", nodeImage := "v1" } } }
  else
    match HandleStableMode latestMetadata currentReleaseHash latestReleaseHash with
    | Except.error e => Except.error ("failed to handle stable mode: " ++ e)
    | Except.ok md =>
      Except.ok { md with versions := { md.versions with kubernetes := kubernetesVersion } }

/-- The externally visible filesystem and network actions of createAction
and generateRelease in pkg/cmd/create.go, in program order. -/
inductive CreateStep where
  | validateGate
  | mkdirReleaseDir
  | writeHashes
  | generateTemplate
  | overwriteAddonVersion
  | overwriteClassVersion
  | createPackage
  | copyAddonConfig
  | writeMetadata
  | createNodeImages
  | publishAssets
deriving DecidableEq, Repr

/-- The outcomes of the filesystem and collaborator calls generateRelease
makes, passed in explicitly because they are external input. -/
structure GenerateEnv where
  mkdirResult : Except String Unit := Except.ok ()
  writeHashesResult : Except String Unit := Except.ok ()
  templateResult : Except String Unit := Except.ok ()
  overwriteAddonResult : Except String Unit := Except.ok ()
  overwriteClassResult : Except String Unit := Except.ok ()
  packageResult : Except String Unit := Except.ok ()
  copyAddonResult : Except String Unit := Except.ok ()
  writeMetadataResult : Except String Unit := Except.ok ()
  nodeImagesResult : Except String Unit := Except.ok ()
  publishResult : Except String Unit := Except.ok ()

/-- Run a sequence of effectful steps in order, recording each step that was
attempted and stopping at the first failure. -/
def runSteps : List (CreateStep × Except String Unit) → List CreateStep × Except String Unit
  | [] => ([], Except.ok ())
  | (s, Except.error e) :: _ => ([s], Except.error e)
  | (s, Except.ok ()) :: rest =>
    let r := runSteps rest
    (s :: r.1, r.2)

/-- generateRelease from pkg/cmd/create.go lines 263 to 379: its first
action is os.MkdirAll on the release directory, followed by writing
hashes.json, templating, the two version overwrites, packaging, copying the
addon config, writing metadata.yaml, building node images, and finally the
optional publish. -/
def generateRelease (env : GenerateEnv) : List CreateStep × Except String Unit :=
  runSteps
    [(CreateStep.mkdirReleaseDir, env.mkdirResult),
     (CreateStep.writeHashes, env.writeHashesResult),
     (CreateStep.generateTemplate, env.templateResult),
     (CreateStep.overwriteAddonVersion, env.overwriteAddonResult),
     (CreateStep.overwriteClassVersion, env.overwriteClassResult),
     (CreateStep.createPackage, env.packageResult),
     (CreateStep.copyAddonConfig, env.copyAddonResult),
     (CreateStep.writeMetadata, env.writeMetadataResult),
     (CreateStep.createNodeImages, env.nodeImagesResult),
     (CreateStep.publishAssets, env.publishResult)]

/-- createAction from pkg/cmd/create.go lines 222 to 250, after the create
options have been assembled: the change gate validateHash runs first, and
only when it passes does generateRelease run; the returned error makes the
command exit nonzero. -/
def createAction (opts : CreateOptions) (env : GenerateEnv) : List CreateStep × Except String Unit :=
  match opts.validateHash with
  | Except.error e =>
    ([CreateStep.validateGate], Except.error ("failed to validate with latest release hash: " ++ e))
  | Except.ok () =>
    let r := generateRelease env
    (CreateStep.validateGate :: r.1,
      match r.2 with
      | Except.error e => Except.error ("failed to generate release: " ++ e)
      | Except.ok () => Except.ok ())

/-- PublishOptions from the publish command (src/unnamed/part_000 lines 50
to 65). -/
structure PublishOptions where
  ClusterStackPath : String := ""
  clusterStackReleaseTemporaryOutputDirName : String := ""
  clusterStackReleaseDirName : String := ""
  latestRepoReleasePath : String := ""
  releaseName : String := ""
  NewClusterStackConvention : Bool := false
  Config : CsctlConfig := {}
  Metadata : MetaData := {}
  CurrentReleaseHash : ReleaseHash := {}
  LatestReleaseHash : ReleaseHash := {}

/-- validateHash of PublishOptions from src/unnamed/part_000 lines 227 to
234: error exactly when the whole tree clusterStack digests of the current
and latest release hashes agree; the three component digests are not read. -/
def PublishOptions.validateHash (p : PublishOptions) : Except String Unit :=
  if p.CurrentReleaseHash.clusterStack = p.LatestReleaseHash.clusterStack then
    Except.error "no change in the cluster stack"
  else
    Except.ok ()

/-- C3: the change gate ValidateWithLatestReleaseHash and the create
command's validateHash compare exactly the ClusterAddonDir,
ClusterAddonValues and NodeImageDir components, never the whole tree
ClusterStack digest, and return the error "no change in the cluster stack"
if and only if all three compared components are pairwise equal, otherwise
no error. -/
theorem validateWithLatestReleaseHash_gate_iff :
    (∀ r latest : ReleaseHash,
      (r.ValidateWithLatestReleaseHash latest = Except.error "no change in the cluster stack" ↔
        (r.clusterAddonDir = latest.clusterAddonDir ∧
         r.clusterAddonValues = latest.clusterAddonValues ∧
         r.nodeImageDir = latest.nodeImageDir)) ∧
      (r.ValidateWithLatestReleaseHash latest = Except.ok () ↔
        ¬(r.clusterAddonDir = latest.clusterAddonDir ∧
          r.clusterAddonValues = latest.clusterAddonValues ∧
          r.nodeImageDir = latest.nodeImageDir))) ∧
    (∀ r latest : ReleaseHash, ∀ x y : String,
      ReleaseHash.ValidateWithLatestReleaseHash
          { r with clusterStack := x } { latest with clusterStack := y } =
        r.ValidateWithLatestReleaseHash latest) ∧
    (∀ c : CreateOptions,
      (c.validateHash = Except.error "no change in the cluster stack" ↔
        (c.CurrentReleaseHash.clusterAddonDir = c.LatestReleaseHash.clusterAddonDir ∧
         c.CurrentReleaseHash.clusterAddonValues = c.LatestReleaseHash.clusterAddonValues ∧
         c.CurrentReleaseHash.nodeImageDir = c.LatestReleaseHash.nodeImageDir)) ∧
      (c.validateHash = Except.ok () ↔
        ¬(c.CurrentReleaseHash.clusterAddonDir = c.LatestReleaseHash.clusterAddonDir ∧
          c.CurrentReleaseHash.clusterAddonValues = c.LatestReleaseHash.clusterAddonValues ∧
          c.CurrentReleaseHash.nodeImageDir = c.LatestReleaseHash.nodeImageDir))) := by
  refine ⟨fun r latest => ?_, fun r latest x y => ?_, fun c => ?_⟩
  · unfold ReleaseHash.ValidateWithLatestReleaseHash
    by_cases h : r.clusterAddonDir = latest.clusterAddonDir ∧
        r.clusterAddonValues = latest.clusterAddonValues ∧
        r.nodeImageDir = latest.nodeImageDir <;>
      simp [h]
  · unfold ReleaseHash.ValidateWithLatestReleaseHash
    rfl
  · unfold CreateOptions.validateHash
    by_cases h : c.CurrentReleaseHash.clusterAddonDir = c.LatestReleaseHash.clusterAddonDir ∧
        c.CurrentReleaseHash.clusterAddonValues = c.LatestReleaseHash.clusterAddonValues ∧
        c.CurrentReleaseHash.nodeImageDir = c.LatestReleaseHash.nodeImageDir <;>
      simp [h]

/-- C6: in stable mode, when the latest remote release lookup returned the
empty string, the resolver seeds the metadata without consulting bump logic:
the fixed apiVersion schema tag, the configured kubernetes version, and v1
for all three component versions, whatever the other inputs are. -/
theorem stableMode_first_release_seeding :
    ∀ (kubernetesVersion : String) (latestMetadata : MetaData) (cur latest : ReleaseHash),
      GetCreateOptionsStableMetadata kubernetesVersion "" latestMetadata cur latest =
        Except.ok
          { apiVersion := "metadata.clusterstack.x-k8s.io/v1alpha1"
            versions :=
              { clusterStack := "v1"
                kubernetes := kubernetesVersion
                components := { clusterAddon := "v1", nodeImage := "v1" } } } :=
  fun _ _ _ _ => rfl

/-- C9: GetClusterStackHash is partial: it panics (modelled by none) exactly
on release hashes whose ClusterStack digest is shorter than seven
characters, among them the zero value; it is total under the precondition of
length at least seven; and the publish path of create.go guards the call
with exactly that length check, defaulting to the empty annotation. -/
theorem getClusterStackHash_partial_prefix :
    ReleaseHash.GetClusterStackHash {} = none ∧
    (∀ r : ReleaseHash, r.GetClusterStackHash = none ↔ r.clusterStack.length < 7) ∧
    (∀ r : ReleaseHash,
      7 ≤ r.clusterStack.length →
        r.GetClusterStackHash = some (String.mk (r.clusterStack.data.take 7))) ∧
    (∀ r : ReleaseHash, ociHashAnnot r = (r.GetClusterStackHash).getD "") := by
  refine ⟨rfl, fun r => ?_, fun r h => ?_, fun r => ?_⟩
  · unfold ReleaseHash.GetClusterStackHash
    by_cases h : 7 ≤ r.clusterStack.length
    · simp [h]
    · simp [h]
      omega
  · unfold ReleaseHash.GetClusterStackHash
    simp [h]
  · unfold ociHashAnnot ReleaseHash.GetClusterStackHash
    by_cases h : 7 ≤ r.clusterStack.length <;> simp [h]

lemma bumpAddonIfChanged_ok (v : String) (cur latest : ReleaseHash) (w : String)
    (h : bumpAddonIfChanged v cur latest = Except.ok w) :
    if cur.clusterAddonDir ≠ latest.clusterAddonDir ∨
        cur.clusterAddonValues ≠ latest.clusterAddonValues then
      BumpVersion v = Except.ok w
    else w = v := by
  unfold bumpAddonIfChanged at h
  by_cases hc : cur.clusterAddonDir ≠ latest.clusterAddonDir ∨
      cur.clusterAddonValues ≠ latest.clusterAddonValues
  · rw [if_pos hc] at h
    rw [if_pos hc]
    cases hb : BumpVersion v with
    | error e => rw [hb] at h; exact Except.noConfusion h
    | ok u => rw [hb] at h; exact congrArg Except.ok (Except.ok.inj h)
  · rw [if_neg hc] at h
    rw [if_neg hc]
    exact (Except.ok.inj h).symm

lemma bumpNodeImageIfChanged_ok (v : String) (cur latest : ReleaseHash) (w : String)
    (h : bumpNodeImageIfChanged v cur latest = Except.ok w) :
    if cur.nodeImageDir ≠ latest.nodeImageDir then BumpVersion v = Except.ok w else w = v := by
  unfold bumpNodeImageIfChanged at h
  by_cases hc : cur.nodeImageDir ≠ latest.nodeImageDir
  · rw [if_pos hc] at h
    rw [if_pos hc]
    cases hb : BumpVersion v with
    | error e => rw [hb] at h; exact Except.noConfusion h
    | ok u => rw [hb] at h; exact congrArg Except.ok (Except.ok.inj h)
  · rw [if_neg hc] at h
    rw [if_neg hc]
    exact (Except.ok.inj h).symm

/-- C1: every successful stable mode resolution bumps the clusterStack
version unconditionally, bumps the clusterAddon version exactly when the
addon directory or addon values digests differ and otherwise carries it
forward unchanged, and bumps the nodeImage version exactly when the node
image directory digests differ and otherwise carries it forward unchanged;
the kubernetes version and apiVersion are carried through. -/
theorem handleStableMode_selective_bump :
    ∀ (metadata : MetaData) (cur latest : ReleaseHash) (result : MetaData),
      HandleStableMode metadata cur latest = Except.ok result →
      BumpVersion metadata.versions.clusterStack = Except.ok result.versions.clusterStack ∧
      (if cur.clusterAddonDir ≠ latest.clusterAddonDir ∨
          cur.clusterAddonValues ≠ latest.clusterAddonValues then
        BumpVersion metadata.versions.components.clusterAddon =
          Except.ok result.versions.components.clusterAddon
      else result.versions.components.clusterAddon = metadata.versions.components.clusterAddon) ∧
      (if cur.nodeImageDir ≠ latest.nodeImageDir then
        BumpVersion metadata.versions.components.nodeImage =
          Except.ok result.versions.components.nodeImage
      else result.versions.components.nodeImage = metadata.versions.components.nodeImage) ∧
      result.versions.kubernetes = metadata.versions.kubernetes ∧
      result.apiVersion = metadata.apiVersion := by
  intro metadata cur latest result h
  unfold HandleStableMode at h
  cases hcs : BumpVersion metadata.versions.clusterStack with
  | error e => rw [hcs] at h; exact Except.noConfusion h
  | ok cs =>
    rw [hcs] at h
    cases ha : bumpAddonIfChanged metadata.versions.components.clusterAddon cur latest with
    | error e => rw [ha] at h; exact Except.noConfusion h
    | ok ca =>
      rw [ha] at h
      cases hn : bumpNodeImageIfChanged metadata.versions.components.nodeImage cur latest with
      | error e => rw [hn] at h; exact Except.noConfusion h
      | ok ni =>
        rw [hn] at h
        have hr := (Except.ok.inj h).symm
        subst hr
        refine ⟨rfl, ?_, ?_, rfl, rfl⟩
        · simpa using bumpAddonIfChanged_ok _ cur latest _ ha
        · simpa using bumpNodeImageIfChanged_ok _ cur latest _ hn

/-- C1 witness: with all three latest versions v1 and hashes differing only
in the addon directory digest, the resolved versions are v2, v2 and v1. -/
theorem handleStableMode_selective_bump_case :
    BumpVersion
        (MetaData.versions
          { apiVersion := "metadata.clusterstack.x-k8s.io/v1alpha1"
            versions :=
              { clusterStack := "v1", kubernetes := "v1.27.3"
                components := { clusterAddon := "v1", nodeImage := "v1" } } }).clusterStack =
      Except.ok
        (MetaData.versions
          { apiVersion := "metadata.clusterstack.x-k8s.io/v1alpha1"
            versions :=
              { clusterStack := "v2", kubernetes := "v1.27.3"
                components := { clusterAddon := "v2", nodeImage := "v1" } } }).clusterStack ∧
    (if ReleaseHash.clusterAddonDir
          { clusterStack := "w1", clusterAddonDir := "a1", clusterAddonValues := "val", nodeImageDir := "n" } ≠
        ReleaseHash.clusterAddonDir
          { clusterStack := "w2", clusterAddonDir := "a2", clusterAddonValues := "val", nodeImageDir := "n" } ∨
        ReleaseHash.clusterAddonValues
          { clusterStack := "w1", clusterAddonDir := "a1", clusterAddonValues := "val", nodeImageDir := "n" } ≠
        ReleaseHash.clusterAddonValues
          { clusterStack := "w2", clusterAddonDir := "a2", clusterAddonValues := "val", nodeImageDir := "n" } then
      BumpVersion "v1" = Except.ok "v2"
    else ("v2" : String) = "v1") ∧
    (if ReleaseHash.nodeImageDir
          { clusterStack := "w1", clusterAddonDir := "a1", clusterAddonValues := "val", nodeImageDir := "n" } ≠
        ReleaseHash.nodeImageDir
          { clusterStack := "w2", clusterAddonDir := "a2", clusterAddonValues := "val", nodeImageDir := "n" } then
      BumpVersion "v1" = Except.ok "v1"
    else ("v1" : String) = "v1") ∧
    ("v1.27.3" : String) = "v1.27.3" ∧
    ("metadata.clusterstack.x-k8s.io/v1alpha1" : String) = "metadata.clusterstack.x-k8s.io/v1alpha1" :=
  handleStableMode_selective_bump
    { apiVersion := "metadata.clusterstack.x-k8s.io/v1alpha1"
      versions :=
        { clusterStack := "v1", kubernetes := "v1.27.3"
          components := { clusterAddon := "v1", nodeImage := "v1" } } }
    { clusterStack := "w1", clusterAddonDir := "a1", clusterAddonValues := "val", nodeImageDir := "n" }
    { clusterStack := "w2", clusterAddonDir := "a2", clusterAddonValues := "val", nodeImageDir := "n" }
    { apiVersion := "metadata.clusterstack.x-k8s.io/v1alpha1"
      versions :=
        { clusterStack := "v2", kubernetes := "v1.27.3"
          components := { clusterAddon := "v2", nodeImage := "v1" } } }
    rfl

/-- C4: every hash mode resolution that returns metadata derives its version
string from the whole tree digest of the current fingerprint as v0-sha.
followed by the seven character prefix of that digest, and assigns that same
string to the clusterStack, clusterAddon and nodeImage versions alike. -/
theorem handleHashMode_wholetree_prefix :
    ∀ (cur : ReleaseHash) (kubernetesVersion : String) (md : MetaData),
      HandleHashMode cur kubernetesVersion = some md →
      md.versions.clusterStack = "v0-sha." ++ String.mk (cur.clusterStack.data.take 7) ∧
      (String.mk (cur.clusterStack.data.take 7)).length = 7 ∧
      md.versions.components.clusterAddon = md.versions.clusterStack ∧
      md.versions.components.nodeImage = md.versions.clusterStack ∧
      md.versions.kubernetes = kubernetesVersion ∧
      md.apiVersion = "metadata.clusterstack.x-k8s.io/v1alpha1" := by
  intro cur kubernetesVersion md h
  unfold HandleHashMode ReleaseHash.GetClusterStackHash at h
  by_cases hl : 7 ≤ cur.clusterStack.length
  · rw [if_pos hl] at h
    simp only at h
    have hm := (Option.some.inj h).symm
    subst hm
    refine ⟨rfl, ?_, rfl, rfl, rfl, rfl⟩
    show (cur.clusterStack.data.take 7).length = 7
    rw [List.length_take]
    exact Nat.min_eq_left hl
  · rw [if_neg hl] at h
    exact Option.noConfusion h

/-- C4 witness: a ten character whole tree digest yields v0-sha.abcdefg for
all three versions. -/
theorem handleHashMode_wholetree_prefix_case :
    (MetaData.versions
        { apiVersion := "metadata.clusterstack.x-k8s.io/v1alpha1"
          versions :=
            { clusterStack := "v0-sha.abcdefg", kubernetes := "v1.27.3"
              components :=
                { clusterAddon := "v0-sha.abcdefg", nodeImage := "v0-sha.abcdefg" } } }).clusterStack =
      "v0-sha." ++ String.mk ((ReleaseHash.clusterStack { clusterStack := "abcdefghij" }).data.take 7) ∧
    (String.mk ((ReleaseHash.clusterStack { clusterStack := "abcdefghij" }).data.take 7)).length = 7 ∧
    ("v0-sha.abcdefg" : String) = "v0-sha.abcdefg" ∧
    ("v0-sha.abcdefg" : String) = "v0-sha.abcdefg" ∧
    ("v1.27.3" : String) = "v1.27.3" ∧
    ("metadata.clusterstack.x-k8s.io/v1alpha1" : String) = "metadata.clusterstack.x-k8s.io/v1alpha1" :=
  handleHashMode_wholetree_prefix { clusterStack := "abcdefghij" } "v1.27.3"
    { apiVersion := "metadata.clusterstack.x-k8s.io/v1alpha1"
      versions :=
        { clusterStack := "v0-sha.abcdefg", kubernetes := "v1.27.3"
          components :=
            { clusterAddon := "v0-sha.abcdefg", nodeImage := "v0-sha.abcdefg" } } }
    rfl

/-- C5: when the three compared digest components of the current and latest
release hashes agree, createAction stops at the change gate with the wrapped
no-change error (a nonzero exit) and never reaches the os.MkdirAll step of
generateRelease, whatever the outcomes of the later steps would have been. -/
theorem createAction_no_change_clean_abort :
    ∀ (opts : CreateOptions) (env : GenerateEnv),
      opts.CurrentReleaseHash.clusterAddonDir = opts.LatestReleaseHash.clusterAddonDir →
      opts.CurrentReleaseHash.clusterAddonValues = opts.LatestReleaseHash.clusterAddonValues →
      opts.CurrentReleaseHash.nodeImageDir = opts.LatestReleaseHash.nodeImageDir →
      (createAction opts env).2 =
        Except.error "failed to validate with latest release hash: no change in the cluster stack" ∧
      CreateStep.mkdirReleaseDir ∉ (createAction opts env).1 := by
  intro opts env h1 h2 h3
  unfold createAction CreateOptions.validateHash
  rw [if_pos ⟨h1, h2, h3⟩]
  refine ⟨rfl, ?_⟩
  show CreateStep.mkdirReleaseDir ∉ [CreateStep.validateGate]
  decide

/-- C5 witness: with identical current and latest release hashes the create
action aborts with the wrapped no-change error and an action trace without
the release directory creation. -/
theorem createAction_no_change_clean_abort_case :
    (createAction { CurrentReleaseHash := { clusterStack := "d1" }, LatestReleaseHash := { clusterStack := "d2" } } {}).2 =
      Except.error "failed to validate with latest release hash: no change in the cluster stack" ∧
    CreateStep.mkdirReleaseDir ∉
      (createAction { CurrentReleaseHash := { clusterStack := "d1" }, LatestReleaseHash := { clusterStack := "d2" } } {}).1 :=
  createAction_no_change_clean_abort
    { CurrentReleaseHash := { clusterStack := "d1" }, LatestReleaseHash := { clusterStack := "d2" } }
    {} rfl rfl rfl

lemma versionNew_render_roundtrip (s : String) (v : CsVersion)
    (h : versionNew s = Except.ok v) : v.render = s := by
  unfold versionNew at h
  cases hs : s.data with
  | nil => rw [hs] at h; exact Except.noConfusion h
  | cons c rest =>
    rw [hs] at h
    simp only at h
    by_cases hc : c = 'v'
    · rw [if_pos hc] at h
      subst hc
      by_cases hds : (rest.takeWhile Char.isDigit).isEmpty
      · rw [if_pos hds] at h; exact Except.noConfusion h
      · rw [if_neg hds] at h
        by_cases hcanon : (Nat.repr (digitsToNat (rest.takeWhile Char.isDigit))).data =
            rest.takeWhile Char.isDigit
        · rw [if_pos hcanon] at h
          cases htl : rest.dropWhile Char.isDigit with
          | nil =>
            rw [htl] at h
            have hv := (Except.ok.inj h).symm
            subst hv
            unfold CsVersion.render
            apply String.ext
            rw [show (String.mk s.data).data = s.data from rfl] at hs
            simp only [hcanon]
            rw [hs]
            have := List.takeWhile_append_dropWhile Char.isDigit rest
            rw [htl] at this
            simp only [List.append_nil] at this
            rw [this]
            simp
          | cons t suf =>
            rw [htl] at h
            simp only at h
            by_cases ht : t = '-'
            · rw [if_pos ht] at h
              subst ht
              by_cases hsuf : suf.isEmpty
              · rw [if_pos hsuf] at h; exact Except.noConfusion h
              · rw [if_neg hsuf] at h
                have hv := (Except.ok.inj h).symm
                subst hv
                unfold CsVersion.render
                apply String.ext
                simp only [hcanon]
                rw [hs]
                have := List.takeWhile_append_dropWhile Char.isDigit rest
                rw [htl] at this
                rw [List.cons_append, this]
            · rw [if_neg ht] at h; exact Except.noConfusion h
        · rw [if_neg hcanon] at h; exact Except.noConfusion h
    · rw [if_neg hc] at h; exact Except.noConfusion h

lemma string_append_cancel_left (a b c : String) (h : a ++ b = a ++ c) : b = c := by
  apply String.ext
  have hd : a.data ++ b.data = a.data ++ c.data := by
    rw [← String.data_append, ← String.data_append, h]
  exact List.append_cancel_left hd

/-- C7: the release directory and tag name is the deterministic dash joined
string of provider type, stack name, kubernetes major and minor, and the
cluster stack version, docker-ferrol-1-27-v3 on the documented example; the
function is pure, so identical inputs give byte identical strings, and for
a fixed configuration two metadata values with different cluster stack
versions never produce the same name. -/
theorem releaseDirectoryName_deterministic :
    (GetClusterStackReleaseDirectoryName { versions := { clusterStack := "v3" } }
        { kubernetesVersion := "v1.27.3", clusterStackName := "ferrol", providerType := "docker" } =
      Except.ok "docker-ferrol-1-27-v3") ∧
    (∀ (metadata : MetaData) (config : CsctlConfig),
      GetClusterStackReleaseDirectoryName metadata config =
        GetClusterStackReleaseDirectoryName metadata config) ∧
    (∀ (md1 md2 : MetaData) (config : CsctlConfig) (s1 s2 : String),
      GetClusterStackReleaseDirectoryName md1 config = Except.ok s1 →
      GetClusterStackReleaseDirectoryName md2 config = Except.ok s2 →
      md1.versions.clusterStack ≠ md2.versions.clusterStack → s1 ≠ s2) := by
  refine ⟨rfl, fun metadata config => rfl, ?_⟩
  intro md1 md2 config s1 s2 h1 h2 hne
  unfold GetClusterStackReleaseDirectoryName at h1 h2
  cases hv1 : versionNew md1.versions.clusterStack with
  | error e => rw [hv1] at h1; exact Except.noConfusion h1
  | ok v1 =>
    rw [hv1] at h1
    cases hv2 : versionNew md2.versions.clusterStack with
    | error e => rw [hv2] at h2; exact Except.noConfusion h2
    | ok v2 =>
      rw [hv2] at h2
      cases hk : config.ParseKubernetesVersion with
      | error e => rw [hk] at h1; exact Except.noConfusion h1
      | ok kv =>
        rw [hk] at h1
        rw [hk] at h2
        have hs1 := Except.ok.inj h1
        have hs2 := Except.ok.inj h2
        intro heq
        apply hne
        have hr : v1.render = v2.render := by
          apply string_append_cancel_left
            (config.providerType ++ "-" ++ config.clusterStackName ++ "-" ++ kv.render ++ "-")
          calc config.providerType ++ "-" ++ config.clusterStackName ++ "-" ++ kv.render ++ "-" ++
              v1.render = s1 := hs1
            _ = s2 := heq
            _ = config.providerType ++ "-" ++ config.clusterStackName ++ "-" ++ kv.render ++ "-" ++
              v2.render := hs2.symm
        rw [← versionNew_render_roundtrip _ _ hv1, ← versionNew_render_roundtrip _ _ hv2, hr]

lemma processEntries_spec (entries : List DirEntry) :
    ∀ rh : ReleaseHash,
      (∀ e ∈ entries, e.relevant → ∃ x, e.hashResult = Except.ok x) →
      ∃ rh', processEntries entries rh = Except.ok rh' ∧
        rh'.clusterStack = rh.clusterStack ∧
        ((∀ e ∈ entries, ¬(e.isDir = true ∧ e.name = clusterAddonDirName)) →
          rh'.clusterAddonDir = rh.clusterAddonDir) ∧
        ((∀ e ∈ entries, ¬(e.isDir = true ∧ e.name = nodeImageDirName)) →
          rh'.nodeImageDir = rh.nodeImageDir) ∧
        ((∀ e ∈ entries, ¬(e.isDir = false ∧ e.name = clusterAddonValuesFileName)) →
          rh'.clusterAddonValues = rh.clusterAddonValues) := by
  induction entries with
  | nil =>
    intro rh _
    exact ⟨rh, rfl, rfl, fun _ => rfl, fun _ => rfl, fun _ => rfl⟩
  | cons e rest ih =>
    intro rh hok
    have hokRest : ∀ e' ∈ rest, e'.relevant → ∃ x, e'.hashResult = Except.ok x :=
      fun e' he' => hok e' (by simp [he'])
    by_cases h1 : e.isDir = true ∧ (e.name = clusterAddonDirName ∨ e.name = nodeImageDirName)
    · obtain ⟨x, hx⟩ := hok e (by simp) (Or.inl h1)
      by_cases h2 : e.name = clusterAddonDirName
      · obtain ⟨rh', hrun, hcs, hA, hN, hV⟩ := ih { rh with clusterAddonDir := clean x } hokRest
        refine ⟨rh', ?_, hcs, ?_, ?_, ?_⟩
        · simp only [processEntries, if_pos h1, hx, if_pos h2]
          exact hrun
        · intro habs
          exact absurd ⟨h1.1, h2⟩ (habs e (by simp))
        · intro habs
          exact hN (fun e' he' => habs e' (by simp [he']))
        · intro habs
          exact hV (fun e' he' => habs e' (by simp [he']))
      · have h3 : e.name = nodeImageDirName := h1.2.resolve_left h2
        obtain ⟨rh', hrun, hcs, hA, hN, hV⟩ := ih { rh with nodeImageDir := clean x } hokRest
        refine ⟨rh', ?_, hcs, ?_, ?_, ?_⟩
        · simp only [processEntries, if_pos h1, hx, if_neg h2]
          exact hrun
        · intro habs
          exact hA (fun e' he' => habs e' (by simp [he']))
        · intro habs
          exact absurd ⟨h1.1, h3⟩ (habs e (by simp))
        · intro habs
          exact hV (fun e' he' => habs e' (by simp [he']))
    · by_cases h2 : e.isDir = false ∧ e.name = clusterAddonValuesFileName
      · obtain ⟨x, hx⟩ := hok e (by simp) (Or.inr h2)
        obtain ⟨rh', hrun, hcs, hA, hN, hV⟩ := ih { rh with clusterAddonValues := clean x } hokRest
        refine ⟨rh', ?_, hcs, ?_, ?_, ?_⟩
        · simp only [processEntries, if_neg h1, if_pos h2, hx]
          exact hrun
        · intro habs
          exact hA (fun e' he' => habs e' (by simp [he']))
        · intro habs
          exact hN (fun e' he' => habs e' (by simp [he']))
        · intro habs
          exact absurd h2 (habs e (by simp))
      · obtain ⟨rh', hrun, hcs, hA, hN, hV⟩ := ih rh hokRest
        refine ⟨rh', ?_, hcs, ?_, ?_, ?_⟩
        · simp only [processEntries, if_neg h1, if_neg h2]
          exact hrun
        · intro habs
          exact hA (fun e' he' => habs e' (by simp [he']))
        · intro habs
          exact hN (fun e' he' => habs e' (by simp [he']))
        · intro habs
          exact hV (fun e' he' => habs e' (by simp [he']))

/-- C8: GetHash succeeds whenever the root directory is readable, the whole
tree hash computes, and every present relevant entry hashes; each absent
optional item, the cluster-addon subtree, the node-image subtree or the
cluster-addon-values file, leaves its component as the empty string rather
than raising an error. -/
theorem getHash_optional_components_absent :
    ∀ (root : RootDir) (entries : List DirEntry) (h : String),
      root.readDirResult = Except.ok entries →
      root.wholeTreeHash = Except.ok h →
      (∀ e ∈ entries, e.relevant → ∃ x, e.hashResult = Except.ok x) →
      ∃ rh, GetHash root = Except.ok rh ∧
        rh.clusterStack = clean h ∧
        ((∀ e ∈ entries, ¬(e.isDir = true ∧ e.name = clusterAddonDirName)) →
          rh.clusterAddonDir = "") ∧
        ((∀ e ∈ entries, ¬(e.isDir = true ∧ e.name = nodeImageDirName)) →
          rh.nodeImageDir = "") ∧
        ((∀ e ∈ entries, ¬(e.isDir = false ∧ e.name = clusterAddonValuesFileName)) →
          rh.clusterAddonValues = "") := by
  intro root entries h hread hwhole hok
  obtain ⟨rh', hrun, hcs, hA, hN, hV⟩ := processEntries_spec entries
    { clusterStack := clean h, clusterAddonDir := "", clusterAddonValues := "", nodeImageDir := "" }
    hok
  refine ⟨rh', ?_, hcs, hA, hN, hV⟩
  unfold GetHash
  rw [hread, hwhole]
  exact hrun

/-- C8 witness: a root whose listing holds only an irrelevant regular file,
even one that would fail to hash, yields the cleaned whole tree digest and
empty strings for all three optional components. -/
theorem getHash_optional_components_absent_case :
    ∃ rh, GetHash
        { readDirResult :=
            Except.ok [{ name := "README.md", isDir := false,
                         hashResult := Except.error "unreadable" }]
          wholeTreeHash := Except.ok "h1:AbC+/=" } = Except.ok rh ∧
      rh.clusterStack = clean "h1:AbC+/=" ∧
      ((∀ e ∈ [({ name := "README.md", isDir := false,
                  hashResult := Except.error "unreadable" } : DirEntry)],
          ¬(e.isDir = true ∧ e.name = clusterAddonDirName)) → rh.clusterAddonDir = "") ∧
      ((∀ e ∈ [({ name := "README.md", isDir := false,
                  hashResult := Except.error "unreadable" } : DirEntry)],
          ¬(e.isDir = true ∧ e.name = nodeImageDirName)) → rh.nodeImageDir = "") ∧
      ((∀ e ∈ [({ name := "README.md", isDir := false,
                  hashResult := Except.error "unreadable" } : DirEntry)],
          ¬(e.isDir = false ∧ e.name = clusterAddonValuesFileName)) → rh.clusterAddonValues = "") :=
  getHash_optional_components_absent
    { readDirResult :=
        Except.ok [{ name := "README.md", isDir := false,
                     hashResult := Except.error "unreadable" }]
      wholeTreeHash := Except.ok "h1:AbC+/=" }
    [{ name := "README.md", isDir := false, hashResult := Except.error "unreadable" }]
    "h1:AbC+/=" rfl rfl
    (by
      intro e he hrel
      simp only [List.mem_singleton] at he
      subst he
      exact absurd hrel (by decide))

/-- C10: the publish command's change gate reads only the whole tree
ClusterStack digests, ignoring the three components the create gate
compares, so the two gates disagree on inputs whose whole tree digests agree
while a component digest differs. -/
theorem publishValidateHash_wholetree_only :
    (∀ p : PublishOptions,
      (p.validateHash = Except.error "no change in the cluster stack" ↔
        p.CurrentReleaseHash.clusterStack = p.LatestReleaseHash.clusterStack) ∧
      (p.validateHash = Except.ok () ↔
        p.CurrentReleaseHash.clusterStack ≠ p.LatestReleaseHash.clusterStack)) ∧
    (∀ p : PublishOptions, ∀ a b c a2 b2 c2 : String,
      PublishOptions.validateHash
          { p with
            CurrentReleaseHash :=
              { p.CurrentReleaseHash with
                clusterAddonDir := a, clusterAddonValues := b, nodeImageDir := c }
            LatestReleaseHash :=
              { p.LatestReleaseHash with
                clusterAddonDir := a2, clusterAddonValues := b2, nodeImageDir := c2 } } =
        p.validateHash) ∧
    (PublishOptions.validateHash
        { CurrentReleaseHash := { clusterStack := "d", clusterAddonDir := "a1" }
          LatestReleaseHash := { clusterStack := "d", clusterAddonDir := "a2" } } =
      Except.error "no change in the cluster stack" ∧
     CreateOptions.validateHash
        { CurrentReleaseHash := { clusterStack := "d", clusterAddonDir := "a1" }
          LatestReleaseHash := { clusterStack := "d", clusterAddonDir := "a2" } } =
      Except.ok ()) := by
  refine ⟨fun p => ?_, fun p a b c a2 b2 c2 => ?_, rfl, rfl⟩
  · unfold PublishOptions.validateHash
    by_cases h : p.CurrentReleaseHash.clusterStack = p.LatestReleaseHash.clusterStack <;>
      simp [h]
  · unfold PublishOptions.validateHash
    rfl
